import Mathlib

/-!
# Verification of the SerialTerminal virtual-port pipeline

A shallow embedding of the privilege-elevation command pipeline and
virtual-port-pair lifecycle manager of the SerialTerminal repository:

* `src/ui/dialogs/virtual_port_dialog.py` — the `PortListParser`, the
  port-pool allocator (`_get_port_availability` / `_get_existing_port_numbers`),
  the `ElevatedHelperWorker` launcher, and the `VirtualPortDialog` orchestrator;
* `src/port_manager_helper.py` — the elevated helper (`main` and
  `execute_setupc_command`).

Python strings are modelled as `List Char` inside the parsing routines
(with `String` at component boundaries), machine integers as `Int`
(Python integers are unbounded), dictionaries as insertion-ordered
association lists, and OS interactions (process launch, waits, file I/O)
as explicit environment values fed to the embedded control flow.
Wall-clock fields (`execution_time`) are not modelled: no claim touches
them and they are the only floating-point data in the pipeline.
-/

namespace SerialTerminal

/-! ## Python string primitives

Helpers mirroring the Python `str` operations used by the sources, over
`List Char`.  `Char.isWhitespace` stands in for Python's whitespace class
(identical on the ASCII characters that occur in the tool's output). -/

/-- `str.strip()`: drop whitespace from both ends. -/
def pyStrip (s : List Char) : List Char :=
  ((s.dropWhile Char.isWhitespace).reverse.dropWhile Char.isWhitespace).reverse

/-- `str.split('\n')`: split on every newline, keeping empty pieces. -/
def splitNl (s : List Char) : List (List Char) :=
  match s with
  | [] => [[]]
  | c :: rest =>
    let r := splitNl rest
    if c = '\n' then [] :: r
    else match r with
      | [] => [[c]]
      | piece :: pieces => (c :: piece) :: pieces

/-- `str.split()` with no argument: split on runs of whitespace, discarding
empty pieces. -/
def pySplitWs (s : List Char) : List (List Char) :=
  match s with
  | [] => []
  | c :: rest =>
    let r := pySplitWs rest
    if c.isWhitespace then r
    else match r, rest with
      | piece :: pieces, d :: _ =>
        if d.isWhitespace then [c] :: piece :: pieces
        else (c :: piece) :: pieces
      | _, _ => [[c]]

/-- `str.split(sep)` for a one-character separator, keeping empty pieces. -/
def splitOnChar (sep : Char) (s : List Char) : List (List Char) :=
  match s with
  | [] => [[]]
  | c :: rest =>
    let r := splitOnChar sep rest
    if c = sep then [] :: r
    else match r with
      | [] => [[c]]
      | piece :: pieces => (c :: piece) :: pieces

/-- `str.split(sep, 1)` for a one-character separator: split at the first
occurrence only; `none` when the separator does not occur (the Python call
sites first test `sep in s`). -/
def splitFirst (sep : Char) : List Char → Option (List Char × List Char)
  | [] => none
  | c :: rest =>
    if c = sep then some ([], rest)
    else match splitFirst sep rest with
      | none => none
      | some (l, r) => some (c :: l, r)

/-- `' '.join(parts)`. -/
def joinSpace : List (List Char) → List Char
  | [] => []
  | [p] => p
  | p :: ps => p ++ ' ' :: joinSpace ps

/-- Evaluate a digit string (most significant first). -/
def digitsToNat (ds : List Char) : Nat :=
  ds.foldl (fun n c => 10 * n + (c.toNat - 48)) 0

/-- Python `int(s)` on a `List Char`: strip whitespace, optional sign, then
a non-empty digit string, where `_` may separate digits (never leading,
trailing, or doubled).  Returns `none` where Python raises `ValueError`.
Non-ASCII digits are not modelled (none occur in the repository's inputs). -/
def pyIntL (s : List Char) : Option Int :=
  let t := pyStrip s
  let core : Option (Int → Int) × List Char :=
    match t with
    | '-' :: rest => (some (fun n => -n), rest)
    | '+' :: rest => (some id, rest)
    | _ => (some id, t)
  match core with
  | (some sign, body) =>
    let ok := body ≠ [] ∧ body.head? ≠ some '_' ∧ body.getLast? ≠ some '_' ∧
      body.all (fun c => c.isDigit ∨ c = '_') ∧
      ¬ (body.zip (body.drop 1)).any (fun p => p.1 = '_' ∧ p.2 = '_')
    if ok then some (sign (digitsToNat (body.filter (· ≠ '_')))) else none
  | (none, _) => none

/-- Python `int(s)` on a `String`. -/
def pyInt (s : String) : Option Int := pyIntL s.data

/-- `str.startswith(p)` on `List Char`. -/
def startsWithL (p s : List Char) : Bool := List.isPrefixOf p s

/-! ## Data model (`virtual_port_dialog.py`, class section "Data Models") -/

/-- `PortStatus` enumeration. -/
inductive PortStatus where
  | ACTIVE
  | DISABLED
  | ERROR
  | UNKNOWN
  deriving DecidableEq, Repr

/-- `Port` dataclass: one endpoint of a virtual pair.  `parameters` is a
Python dict, modelled as an insertion-ordered association list. -/
structure Port where
  identifier : String
  port_name : String := ""
  parameters : List (String × String) := []
  deriving DecidableEq, Repr

/-- `PortPair` dataclass. -/
structure PortPair where
  number : Int
  port_a : Port
  port_b : Port
  status : PortStatus := PortStatus.UNKNOWN
  deriving DecidableEq, Repr

/-- `CommandResult` dataclass (shared shape between the dialog and the
helper).  `execution_time` is omitted (floating-point, referenced by no
claim). -/
structure CommandResult where
  success : Bool
  output : String := ""
  error : String := ""
  return_code : Int := 0
  command : String := ""
  deriving DecidableEq, Repr

/-- `CommandResult.get_error_message`. -/
def CommandResult.getErrorMessage (r : CommandResult) : String :=
  if r.success then ""
  else if r.error ≠ "" then r.error
  else if r.return_code ≠ 0 then
    "Command failed with exit code " ++ toString r.return_code
  else "Unknown error occurred"

/-! ## PortListParser (`virtual_port_dialog.py` lines 150–220) -/

/-- `dict[key] = value` on an insertion-ordered association list: replace the
value of an existing key in place, else append. -/
def insertParam (ps : List (String × String)) (k v : String) :
    List (String × String) :=
  if ps.any (fun kv => kv.1 = k) then
    ps.map (fun kv => if kv.1 = k then (k, v) else kv)
  else ps ++ [(k, v)]

/-- `PortListParser._parse_parameters`: split on commas, keep `key=value`
entries (first `=` splits), strip keys and values. -/
def parseParameters (paramsStr : List Char) : List (String × String) :=
  (splitOnChar ',' paramsStr).foldl
    (fun parameters param =>
      let param := pyStrip param
      match splitFirst '=' param with
      | some (key, value) =>
          insertParam parameters (String.mk (pyStrip key)) (String.mk (pyStrip value))
      | none => parameters)
    []

/-- The per-line mutation of one side of a pair: set `identifier` to the
parsed token and, when the line carries further tokens, parse them as
parameters and extract `PortName`. -/
def applySide (isA : Bool) (portId : List Char) (rest : List (List Char))
    (pair : PortPair) : PortPair :=
  let update (port : Port) : Port :=
    let port := { port with identifier := String.mk portId }
    if rest ≠ [] then
      let parameters := parseParameters (joinSpace rest)
      let port := { port with parameters := parameters }
      match parameters.lookup "PortName" with
      | some v => { port with port_name := v }
      | none => port
    else port
  if isA then { pair with port_a := update pair.port_a }
  else { pair with port_b := update pair.port_b }

/-- A fresh `PortPair` as constructed by the parser when a number is first
seen (identifiers are set explicitly, so `__post_init__` leaves them). -/
def newPair (pairNum : Int) : PortPair :=
  { number := pairNum
    port_a := { identifier := "CNCA" ++ toString pairNum }
    port_b := { identifier := "CNCB" ++ toString pairNum }
    status := PortStatus.ACTIVE }

/-- Replace the first pair with the given number (the Python code mutates
the object returned by `next(p for p in port_pairs if p.number == pair_num)`). -/
def replaceFirstByNumber (f : PortPair → PortPair) (n : Int) :
    List PortPair → List PortPair
  | [] => []
  | p :: ps =>
    if p.number = n then f p :: ps else p :: replaceFirstByNumber f n ps

/-- One iteration of the parser's line loop. -/
def processLine (acc : List PortPair) (rawLine : List Char) : List PortPair :=
  let line := pyStrip rawLine
  if line = [] ∨ startsWithL "command>".data line then acc
  else if startsWithL "CNC".data line then
    match pySplitWs line with
    | [] => acc
    | portId :: rest =>
      if portId.length < 5 ∨
          ¬ (portId.get? 3 = some 'A' ∨ portId.get? 3 = some 'B') then acc
      else
        match pyIntL (portId.drop 4) with
        | none => acc
        | some pairNum =>
          let isA := portId.get? 3 = some 'A'
          if acc.any (fun p => p.number = pairNum) then
            replaceFirstByNumber (applySide isA portId rest) pairNum acc
          else
            acc ++ [applySide isA portId rest (newPair pairNum)]
  else acc

/-- Stable insertion into a list sorted by pair number (used to model
Python's `sorted(port_pairs, key=lambda p: p.number)`; the accumulated
list always has pairwise-distinct numbers, so any correct sort agrees
with Python's stable one). -/
def insertByNumber (p : PortPair) : List PortPair → List PortPair
  | [] => [p]
  | q :: qs =>
    if p.number < q.number then p :: q :: qs else q :: insertByNumber p qs

/-- `sorted(l, key=lambda p: p.number)`. -/
def sortByNumber : List PortPair → List PortPair
  | [] => []
  | p :: ps => insertByNumber p (sortByNumber ps)

/-- `PortListParser.parse_port_list`. -/
def parsePortList (output : String) : List PortPair :=
  sortByNumber ((splitNl (pyStrip output.data)).foldl processLine [])

/-! ## Port-pool allocator (`VirtualPortDialog._get_existing_port_numbers`,
`VirtualPortDialog._get_port_availability`) -/

/-- `VIRTUAL_PORT_RANGE_START`. -/
def VIRTUAL_PORT_RANGE_START : Int := 150

/-- `VIRTUAL_PORT_RANGE_END`. -/
def VIRTUAL_PORT_RANGE_END : Int := 199

/-- Add the numeric suffix of one `port_name` to the used set, exactly as
the body of `_get_existing_port_numbers` does per side: the name must be
truthy (non-empty), start with `COM`, and the remainder must be a Python
integer.  The set is modelled as a list used only through membership. -/
def addPortNumber (numbers : List Int) (name : String) : List Int :=
  if name ≠ "" ∧ startsWithL "COM".data name.data then
    match pyIntL (name.data.drop 3) with
    | some n => numbers ++ [n]
    | none => numbers
  else numbers

/-- `VirtualPortDialog._get_existing_port_numbers`. -/
def getExistingPortNumbers (pairs : List PortPair) : List Int :=
  pairs.foldl
    (fun numbers pair =>
      addPortNumber (addPortNumber numbers pair.port_a.port_name)
        pair.port_b.port_name)
    []

/-- The ascending candidate list `range(150, 199 + 1)` of
`_get_port_availability`. -/
def portCandidates : List Int :=
  (List.range 50).map (fun i => VIRTUAL_PORT_RANGE_START + (i : Int))

/-- `VirtualPortDialog._get_port_availability`: first free candidate (a
candidate `n` is free when neither `n` nor `n + 1` is used) plus the count
of all free candidates. -/
def getPortAvailability (pairs : List PortPair) : Option Int × Nat :=
  let existing := getExistingPortNumbers pairs
  portCandidates.foldl
    (fun acc candidate =>
      if candidate ∉ existing ∧ (candidate + 1) ∉ existing then
        (some (acc.1.getD candidate), acc.2 + 1)
      else acc)
    (none, 0)

/-- Modelled from the spec (§4.5 `PortPoolAllocator`, for the refinement
statement of the allocator claim): a candidate is free iff neither it nor
its successor is in the used set. -/
def specFree (existing : List Int) (n : Int) : Bool :=
  decide (n ∉ existing ∧ (n + 1) ∉ existing)

/-- Modelled from the spec: the first free candidate of the ascending range. -/
def specNextFree (existing : List Int) : Option Int :=
  portCandidates.find? (specFree existing)

/-- Modelled from the spec: the number of all free candidates in the range. -/
def specAvailableCount (existing : List Int) : Nat :=
  (portCandidates.filter (specFree existing)).length

/-! ## Elevated helper (`port_manager_helper.py`) -/

/-- Outcome of the helper's `subprocess.run` call, supplied as environment
(the child process is an external program). -/
inductive ExecOutcome where
  | completed (returncode : Int) (stdout stderr : String)
  | timedOut
  | fileNotFound
  | unexpected (msg : String)
  deriving DecidableEq, Repr

/-- Environment of one `execute_setupc_command` call: whether
`os.path.exists(setupc_path)` holds, the result of `shlex.split` (`none`
models `ValueError`), and the child-process outcome. -/
structure HelperEnv where
  pathExists : Bool
  tokenization : Option (List String)
  execution : ExecOutcome
  deriving DecidableEq, Repr

/-- `execute_setupc_command` (helper lines 47–140). -/
def executeSetupcCommand (setupcPath command : String) (timeout : Int)
    (env : HelperEnv) : CommandResult :=
  let fullCommand := "\"" ++ setupcPath ++ "\" " ++ command
  if ¬ env.pathExists then
    { success := false, output := "",
      error := "setupc.exe not found at: " ++ setupcPath,
      return_code := -2, command := fullCommand }
  else
    match env.tokenization with
    | none =>
      { success := false, output := "",
        error := "Invalid command format",
        return_code := -4, command := fullCommand }
    | some _ =>
      match env.execution with
      | ExecOutcome.completed rc out err =>
        { success := rc = 0, output := out, error := err,
          return_code := rc, command := fullCommand }
      | ExecOutcome.timedOut =>
        { success := false, output := "",
          error := "Command timed out after " ++ toString timeout ++ " seconds",
          return_code := -1, command := fullCommand }
      | ExecOutcome.fileNotFound =>
        { success := false, output := "",
          error := "setupc.exe not found at: " ++ setupcPath,
          return_code := -2, command := fullCommand }
      | ExecOutcome.unexpected msg =>
        { success := false, output := "",
          error := "Unexpected error: " ++ msg,
          return_code := -3, command := fullCommand }

/-- The argument loop of the helper's `main` (lines 167–179): walk the
arguments after `<setupc_path> <command>`, consuming `--output-file <path>`
pairs and otherwise treating any token that parses as a Python integer as
the (latest) timeout, silently skipping tokens that do not parse. -/
def parseArgs : List String → Int → Option String → Int × Option String
  | [], timeout, outputFile => (timeout, outputFile)
  | [a], timeout, outputFile =>
    (match pyInt a with
     | some n => (n, outputFile)
     | none => (timeout, outputFile))
  | a :: b :: rest, timeout, outputFile =>
    if a = "--output-file" then parseArgs rest timeout (some b)
    else
      match pyInt a with
      | some n => parseArgs (b :: rest) n outputFile
      | none => parseArgs (b :: rest) timeout outputFile

/-- What the helper's `main` decides to do before any tool execution:
an early structured-failure exit, or the execution of the tool with the
effective timeout and output file. -/
inductive HelperAction where
  | usageError (record : CommandResult) (exitCode : Nat)
  | invalidTimeout (record : CommandResult) (exitCode : Nat)
  | execute (setupcPath command : String) (timeout : Int)
      (outputFile : Option String)
  deriving DecidableEq, Repr

/-- `main` of `port_manager_helper.py` up to (and excluding) the
`execute_setupc_command` call: argument validation and parsing.  The
`argv` list is `sys.argv`, script name included. -/
def helperMain (argv : List String) : HelperAction :=
  match argv with
  | _ :: setupcPath :: command :: rest =>
    let parsed := parseArgs rest 30 none
    if parsed.1 ≤ 0 ∨ parsed.1 > 300 then
      HelperAction.invalidTimeout
        { success := false, output := "",
          error := "Invalid timeout value: " ++ toString parsed.1 ++
            " (must be 1-300 seconds)",
          return_code := -11, command := "" } 1
    else
      HelperAction.execute setupcPath command parsed.1 parsed.2
  | _ =>
    HelperAction.usageError
      { success := false, output := "",
        error := "Usage: port_manager_helper.py <setupc_path> <command> [timeout] [--output-file <path>]",
        return_code := -10, command := "" } 1

/-! ## Privilege-elevation launcher (`ElevatedHelperWorker`,
`virtual_port_dialog.py` lines 227–530) -/

/-- Outcome of the `ShellExecuteEx`/`WaitForSingleObject` sequence in
`_execute_elevated_command`, supplied as environment (it is a chain of
Windows API calls). -/
inductive ElevOutcome where
  /-- `ShellExecuteEx` returned false; the payload is `GetLastError()`
  (`1223` is `ERROR_CANCELLED`: the user denied the UAC prompt). -/
  | shellExecFail (errorCode : Int)
  /-- `ShellExecuteEx` succeeded but returned no process handle. -/
  | noHandle
  /-- `WaitForSingleObject` hit the `timeout + 30` bound. -/
  | waitTimeout
  /-- `GetExitCodeProcess` failed after the wait. -/
  | getExitCodeFail
  /-- The helper process exited with the given exit code. -/
  | completed (exitCode : Int)
  deriving DecidableEq, Repr

/-- `ElevatedHelperWorker._execute_elevated_command`: the `return_code`
component of its `(return_code, execution_time)` result. -/
def executeElevatedCommand : ElevOutcome → Int
  | ElevOutcome.shellExecFail e => if e = 1223 then 1223 else -1
  | ElevOutcome.noHandle => -1
  | ElevOutcome.waitTimeout => -1
  | ElevOutcome.getExitCodeFail => -1
  | ElevOutcome.completed c => c

/-- The fields the launcher extracts from the helper's JSON record via
`dict.get` with defaults (`none` models an absent key). -/
structure HelperRecord where
  success : Option Bool
  output : Option String
  error : Option String
  return_code : Option Int
  command : Option String
  deriving DecidableEq, Repr

/-- What reading and JSON-parsing the result-channel temp file yields:
`absent` covers a missing or unreadable file and blank content (all give
an empty `stdout.strip()`), `malformed` a non-blank content that
`json.loads` rejects (with the raw text and the decode-error text), and
`record` a parsed JSON object. -/
inductive ChannelRead where
  | absent
  | malformed (raw errMsg : String)
  | record (r : HelperRecord)
  deriving DecidableEq, Repr

/-- Environment of one `ElevatedHelperWorker.run` execution: the resolved
helper path (`none` when `_get_helper_path` found nothing), `sys.frozen`,
the `dev_mode_fallback` flag, the elevation outcome, the channel read, and
the `CommandResult` a dev-mode direct execution would produce (external
`subprocess.run`). -/
structure WorkerEnv where
  helperPath : Option String
  frozen : Bool
  devModeFallback : Bool
  elev : ElevOutcome
  channel : ChannelRead
  directResult : CommandResult
  deriving DecidableEq, Repr

/-- `ElevatedHelperWorker.run`: the `CommandResult` emitted via
`command_finished`. -/
def workerRun (command : String) (env : WorkerEnv) : CommandResult :=
  match env.helperPath with
  | none =>
    if ¬ env.frozen ∧ env.devModeFallback then env.directResult
    else
      { success := false, output := "",
        error := "Port Manager helper not found. Please reinstall the application.",
        return_code := -2, command := command }
  | some _ =>
    let rc := executeElevatedCommand env.elev
    match env.channel with
    | ChannelRead.record r =>
      { success := r.success.getD false, output := r.output.getD "",
        error := r.error.getD "", return_code := r.return_code.getD rc,
        command := r.command.getD command }
    | ChannelRead.absent =>
      let errorMsg :=
        if rc = 1223 then
          "Administrator privileges required (UAC prompt was denied)"
        else "Helper process failed with exit code " ++ toString rc
      { success := false, output := "", error := errorMsg,
        return_code := rc, command := command }
    | ChannelRead.malformed raw errMsg =>
      { success := false, output := raw,
        error := "Invalid response from helper: " ++ errMsg,
        return_code := rc, command := command }

/-- The sentinel return codes of the pipeline (spec §6). -/
def sentinelCodes : List Int := [-1, -2, -3, -4, -10, -11, -12, -99]

/-! ## Orchestrator (`VirtualPortDialog`) -/

/-- `SETUPC_PATH`. -/
def SETUPC_PATH : String := "C:\\Program Files (x86)\\com0com\\setupc.exe"

/-- A worker the orchestrator starts: constructor arguments of
`ElevatedHelperWorker(...)` followed by `worker.start()`. -/
structure WorkerSpec where
  setupcPath : String
  command : String
  timeout : Int
  deriving DecidableEq, Repr

/-- The orchestrator state: the guard flags and in-memory pair set of
`VirtualPortDialog` plus the toolbar pieces its handlers write to
(status label, availability counter, button enablement).  `setupcExists`
models `os.path.exists(SETUPC_PATH)`, constant during a dialog's life. -/
structure DialogState where
  operationInProgress : Bool
  closing : Bool
  portPairs : List PortPair
  statusText : String
  counterText : String
  buttonsEnabled : Bool
  createEnabled : Bool
  createTooltip : String
  setupcExists : Bool
  deriving DecidableEq, Repr

/-- `VirtualPortToolbar.set_status`. -/
def setStatus (s : DialogState) (message : String)
    (available total : Option Nat) : DialogState :=
  match available, total with
  | some a, some t =>
    { s with statusText := message,
             counterText := "(" ++ toString a ++ "/" ++ toString t ++ ")" }
  | _, _ => { s with statusText := message, counterText := "" }

/-- `VirtualPortDialog._execute_command`: the guard and worker start.
Returns the new state and the started worker (`none` when the request is
dropped). -/
def executeCommand (s : DialogState) (command : String) (timeout : Int) :
    DialogState × Option WorkerSpec :=
  if s.operationInProgress then (s, none)
  else if s.closing then (s, none)
  else
    ({ s with operationInProgress := true },
      some { setupcPath := SETUPC_PATH, command := command, timeout := timeout })

/-- A follow-up operation a completion handler triggers. -/
inductive FollowUp where
  /-- `self._load_existing_pairs()` (which re-runs the `list` command). -/
  | loadExistingPairs
  deriving DecidableEq, Repr

/-- `VirtualPortDialog._update_create_button_state`. -/
def updateCreateButtonState (s : DialogState) : DialogState :=
  let availability := getPortAvailability s.portPairs
  let maxSlots : Int := VIRTUAL_PORT_RANGE_END - VIRTUAL_PORT_RANGE_START + 1
  match availability.1 with
  | some nextPort =>
    let s := if s.setupcExists then { s with createEnabled := true } else s
    { s with createTooltip :=
        "Create COM" ++ toString nextPort ++ "↔COM" ++ toString (nextPort + 1) ++
        " (" ++ toString availability.2 ++ "/" ++ toString maxSlots ++
        " slots available)" }
  | none =>
    { s with createEnabled := false,
             createTooltip := "No available port slots in range 150-200" }

/-- `VirtualPortDialog._on_list_result`. -/
def onListResult (s : DialogState) (result : CommandResult) :
    DialogState × List FollowUp :=
  if s.closing then (s, [])
  else
    let s := { s with operationInProgress := false, buttonsEnabled := true }
    let s :=
      if result.success then
        let pairs := parsePortList result.output
        let s := { s with portPairs := pairs }
        let available := (getPortAvailability pairs).2
        let total : Nat := 50
        if pairs.length > 0 then setStatus s "Ready" (some available) (some total)
        else setStatus s "No virtual port pairs found" (some available) (some total)
      else
        setStatus s ("Error - " ++ result.getErrorMessage) none none
    (updateCreateButtonState s, [])

/-- `VirtualPortDialog._on_pair_created`. -/
def onPairCreated (s : DialogState) (result : CommandResult)
    (comA comB : String) : DialogState × List FollowUp :=
  if s.closing then (s, [])
  else
    let s := { s with operationInProgress := false, buttonsEnabled := true }
    if result.success then
      (setStatus s ("Created " ++ comA ++ " ↔ " ++ comB) none none,
        [FollowUp.loadExistingPairs])
    else
      (setStatus s ("Error - " ++ result.getErrorMessage) none none, [])

/-- `VirtualPortDialog._on_remove_result`. -/
def onRemoveResult (s : DialogState) (result : CommandResult) :
    DialogState × List FollowUp :=
  if s.closing then (s, [])
  else
    let s := { s with operationInProgress := false, buttonsEnabled := true }
    if result.success then
      (setStatus s "Port pair removed" none none, [FollowUp.loadExistingPairs])
    else
      (setStatus s ("Error - " ++ result.getErrorMessage) none none, [])

/-! ## Lemmas about the parser's accumulated pair list -/

theorem applySide_number (isA : Bool) (portId : List Char)
    (rest : List (List Char)) (pair : PortPair) :
    (applySide isA portId rest pair).number = pair.number := by
  unfold applySide
  cases isA <;> simp

theorem newPair_number (n : Int) : (newPair n).number = n := rfl

theorem replaceFirstByNumber_map_number (f : PortPair → PortPair)
    (hf : ∀ p, (f p).number = p.number) (n : Int) :
    ∀ l : List PortPair,
      (replaceFirstByNumber f n l).map PortPair.number = l.map PortPair.number
  | [] => rfl
  | p :: ps => by
    unfold replaceFirstByNumber
    by_cases h : p.number = n
    · simp [h, hf]
    · simp [h, replaceFirstByNumber_map_number f hf n ps]

theorem processLine_nodup (acc : List PortPair) (rawLine : List Char)
    (h : (acc.map PortPair.number).Nodup) :
    ((processLine acc rawLine).map PortPair.number).Nodup := by
  unfold processLine
  dsimp only
  split
  · exact h
  split
  · split
    · exact h
    rename_i portId rest
    split
    · exact h
    split
    · exact h
    rename_i pairNum _
    split
    · rw [replaceFirstByNumber_map_number _ (fun p => applySide_number _ _ _ p)]
      exact h
    · rename_i hnone
      simp only [List.map_append, List.map_cons, List.map_nil]
      rw [applySide_number, newPair_number]
      refine List.Nodup.append h (List.nodup_singleton _) ?_
      intro x hx hx'
      simp only [List.mem_singleton] at hx'
      subst hx'
      simp only [List.mem_map] at hx
      obtain ⟨p, hp, hpn⟩ := hx
      simp only [Bool.not_eq_true, List.any_eq_false, decide_eq_true_eq]
        at hnone
      exact hnone p hp hpn
  · exact h

theorem foldl_processLine_nodup :
    ∀ (lines : List (List Char)) (acc : List PortPair),
      (acc.map PortPair.number).Nodup →
      ((lines.foldl processLine acc).map PortPair.number).Nodup
  | [], _, h => h
  | line :: lines, acc, h =>
    foldl_processLine_nodup lines (processLine acc line)
      (processLine_nodup acc line h)

theorem insertByNumber_perm (p : PortPair) :
    ∀ l : List PortPair, (insertByNumber p l).Perm (p :: l)
  | [] => List.Perm.refl _
  | q :: qs => by
    unfold insertByNumber
    by_cases h : p.number < q.number
    · simp [h]
    · simp only [h, if_false]
      exact ((insertByNumber_perm p qs).cons q).trans (List.Perm.swap _ _ _)

theorem sortByNumber_perm : ∀ l : List PortPair, (sortByNumber l).Perm l
  | [] => List.Perm.refl _
  | p :: ps =>
    (insertByNumber_perm p (sortByNumber ps)).trans
      ((sortByNumber_perm ps).cons p)

theorem insertByNumber_pairwise (p : PortPair) :
    ∀ l : List PortPair,
      l.Pairwise (fun a b => a.number ≤ b.number) →
      (insertByNumber p l).Pairwise (fun a b => a.number ≤ b.number)
  | [], _ => List.pairwise_singleton _ _
  | q :: qs, h => by
    unfold insertByNumber
    rw [List.pairwise_cons] at h
    by_cases hlt : p.number < q.number
    · simp only [hlt, if_true]
      rw [List.pairwise_cons]
      refine ⟨?_, List.pairwise_cons.mpr h⟩
      intro x hx
      rcases List.mem_cons.mp hx with hx | hx
      · exact hx ▸ le_of_lt hlt
      · exact le_trans (le_of_lt hlt) (h.1 x hx)
    · simp only [hlt, if_false]
      rw [List.pairwise_cons]
      refine ⟨?_, insertByNumber_pairwise p qs h.2⟩
      intro x hx
      rcases List.mem_cons.mp (((insertByNumber_perm p qs).mem_iff).mp hx) with
        hx | hx
      · exact hx ▸ le_of_not_lt hlt
      · exact h.1 x hx

theorem sortByNumber_pairwise :
    ∀ l : List PortPair,
      (sortByNumber l).Pairwise (fun a b => a.number ≤ b.number)
  | [] => List.Pairwise.nil
  | p :: ps => insertByNumber_pairwise p _ (sortByNumber_pairwise ps)

/-- C3: For every input text, the sequence of PortPair objects returned by
`parse_port_list` is sorted strictly ascending by pair number and contains
no two entries with the same number. -/
theorem parse_port_list_strictly_ascending (output : String) :
    (parsePortList output).Pairwise (fun p q => p.number < q.number) := by
  unfold parsePortList
  set l := (splitNl (pyStrip output.data)).foldl processLine [] with hl
  have hnodup : (l.map PortPair.number).Nodup :=
    foldl_processLine_nodup _ [] (by simp)
  have hperm :
      ((sortByNumber l).map PortPair.number).Perm (l.map PortPair.number) :=
    (sortByNumber_perm l).map _
  have hnodup' : ((sortByNumber l).map PortPair.number).Nodup :=
    hperm.nodup_iff.mpr hnodup
  have hne : (sortByNumber l).Pairwise (fun p q => p.number ≠ q.number) :=
    List.pairwise_map.mp hnodup'
  exact ((sortByNumber_pairwise l).and hne).imp
    (fun h => lt_of_le_of_ne h.1 h.2)

/-! ## Allocator theorems -/

theorem availability_foldl (existing : List Int) :
    ∀ (cs : List Int) (acc : Option Int × Nat),
      (cs.foldl
        (fun acc candidate =>
          if candidate ∉ existing ∧ (candidate + 1) ∉ existing then
            (some (acc.1.getD candidate), acc.2 + 1)
          else acc)
        acc) =
      (acc.1.orElse (fun _ => cs.find? (specFree existing)),
        acc.2 + (cs.filter (specFree existing)).length) := by
  intro cs
  induction cs with
  | nil =>
    intro acc
    obtain ⟨a1, a2⟩ := acc
    cases a1 <;> simp [List.find?, Option.orElse]
  | cons c cs ih =>
    intro acc
    by_cases hc : c ∉ existing ∧ (c + 1) ∉ existing
    · have hspec : specFree existing c = true := by
        simp [specFree, hc.1, hc.2]
      simp only [List.foldl_cons, if_pos hc, ih, List.find?_cons, hspec,
        List.filter_cons, List.length_cons]
      cases acc1 : acc.1 <;> simp [Option.orElse, Option.getD] <;> omega
    · have hspec : specFree existing c = false := by
        simp only [specFree, decide_eq_false_iff_not]
        exact hc
      simp only [List.foldl_cons, if_neg hc, ih, List.find?_cons, hspec,
        List.filter_cons]
      simp

/-- The concrete pair set of the allocator scenario: two pairs whose
OS-visible names use the suffixes 150, 151, 160, 161. -/
def scenarioPairs : List PortPair :=
  [ { number := 0, port_a := { identifier := "CNCA0", port_name := "COM150" },
      port_b := { identifier := "CNCB0", port_name := "COM151" } },
    { number := 1, port_a := { identifier := "CNCA1", port_name := "COM160" },
      port_b := { identifier := "CNCB1", port_name := "COM161" } } ]

/-- C2: For every set of existing pairs, the allocator scans `[150, 199]`
ascending and returns the first `n` with neither `n` nor `n + 1` among the
numeric suffixes of the existing ports' COM names, together with the count
of all such free `n` (`(None, 0)` when no candidate exists, since
`find?` and `filter` are then empty); for used suffixes
`{150, 151, 160, 161}` it returns candidate 152. -/
theorem allocator_next_free_spec :
    (∀ pairs : List PortPair,
      getPortAvailability pairs =
        (specNextFree (getExistingPortNumbers pairs),
          specAvailableCount (getExistingPortNumbers pairs))) ∧
    getExistingPortNumbers scenarioPairs = [150, 151, 160, 161] ∧
    getPortAvailability scenarioPairs = (some 152, 45) := by
  refine ⟨?_, by decide, by decide⟩
  intro pairs
  unfold getPortAvailability specNextFree specAvailableCount
  rw [availability_foldl (getExistingPortNumbers pairs) portCandidates
    (none, 0)]
  simp [Option.orElse]

/-! ## Parser scenario and skip-rule theorems -/

/-- C5: Parsing the two-line listing text
`"CNCA0 PortName=COM150,EmuBR=yes"` / `"CNCB0 PortName=COM151,EmuBR=yes"`
yields exactly one PortPair with number 0, `port_a.port_name = "COM150"`
and `port_b.port_name = "COM151"`. -/
theorem parse_two_line_listing_scenario :
    (parsePortList
        "CNCA0 PortName=COM150,EmuBR=yes\nCNCB0 PortName=COM151,EmuBR=yes").length
      = 1 ∧
    (parsePortList
        "CNCA0 PortName=COM150,EmuBR=yes\nCNCB0 PortName=COM151,EmuBR=yes").map
      PortPair.number = [0] ∧
    (parsePortList
        "CNCA0 PortName=COM150,EmuBR=yes\nCNCB0 PortName=COM151,EmuBR=yes").map
      (fun p => p.port_a.port_name) = ["COM150"] ∧
    (parsePortList
        "CNCA0 PortName=COM150,EmuBR=yes\nCNCB0 PortName=COM151,EmuBR=yes").map
      (fun p => p.port_b.port_name) = ["COM151"] := by
  decide

/-- C4 counterexample: the line `"CNCA-5 PortName=COM1"`, whose characters
after the side marker are `-5` (not a non-negative integer), is *not*
skipped — it creates a pair with number `-5`. -/
theorem parse_negative_pair_number_cex :
    (parsePortList "CNCA-5 PortName=COM1").map PortPair.number = [-5] ∧
    (parsePortList "CNCA-5 PortName=COM1").map
      (fun p => p.port_a.port_name) = ["COM1"] := by
  decide

/-- C4 (amended): a line whose first token passes the prefix and
side-marker shape checks creates or updates a pair only when the
characters after the side marker parse as a Python integer (an optional
sign is accepted, so `CNCA-5` yields a pair numbered `-5`); a line whose
remaining characters do not parse as any integer is skipped. -/
theorem parse_skip_noninteger_amended :
    (∀ (acc : List PortPair) (rawLine : List Char),
      pyIntL (((pySplitWs (pyStrip rawLine)).headD []).drop 4) = none →
      processLine acc rawLine = acc) ∧
    (parsePortList "CNCA-5 PortName=COM1").map PortPair.number = [-5] := by
  refine ⟨?_, by decide⟩
  intro acc rawLine hnone
  unfold processLine
  dsimp only
  split
  · rfl
  split
  · split
    · rfl
    rename_i portId rest heq
    rw [heq] at hnone
    simp only [List.headD_cons] at hnone
    split
    · rfl
    rw [hnone]
  · rfl

/-- Witness for the amended C4 skip rule at a concrete input: the line
`CNCAx 1` has post-marker text `x`, which is not an integer, so the line
is skipped. -/
theorem parse_skip_noninteger_amended_witness :
    processLine [] "CNCAx 1".data = [] :=
  parse_skip_noninteger_amended.1 [] "CNCAx 1".data (by decide)

/-! ## Launcher failure-code theorems -/

/-- A launcher environment in which the user denies the UAC prompt
(`ShellExecuteEx` fails with `ERROR_CANCELLED = 1223`) and the result
channel stays empty. -/
def deniedEnv : WorkerEnv :=
  { helperPath := some "SerialPortManager.exe", frozen := true,
    devModeFallback := true, elev := ElevOutcome.shellExecFail 1223,
    channel := ChannelRead.absent, directResult := { success := true } }

/-- A launcher environment in which the launcher's own wait on the helper
process times out and the result channel stays empty. -/
def waitTimeoutEnv : WorkerEnv :=
  { helperPath := some "SerialPortManager.exe", frozen := true,
    devModeFallback := true, elev := ElevOutcome.waitTimeout,
    channel := ChannelRead.absent, directResult := { success := true } }

/-- A helper environment in which the child tool's execution hits the
helper's internal timeout. -/
def helperTimeoutEnv : HelperEnv :=
  { pathExists := true, tokenization := some ["setupc.exe", "list"],
    execution := ExecOutcome.timedOut }

/-- C1 counterexample: when the user denies the elevation prompt, the
delivered `CommandResult` has `success = false` but carries the *positive*
platform status 1223 as its `return_code` — not a negative sentinel code. -/
theorem elevation_denied_positive_code_cex :
    (workerRun "list" deniedEnv).success = false ∧
    (workerRun "list" deniedEnv).return_code = 1223 ∧
    ¬ (workerRun "list" deniedEnv).return_code < 0 ∧
    (workerRun "list" deniedEnv).return_code ∉ sentinelCodes := by
  decide

/-- C1 (amended): every pipeline-internal failure of the launcher delivers
`success = false`; helper-not-found carries the negative sentinel `-2` and
a launcher wait timeout carries `-1`, but the elevation-denied result
carries the positive platform status `1223`, and missing/empty or
malformed result-channel content reuses the helper process's exit code,
which need not be negative. -/
theorem pipeline_failure_codes (command : String) (env : WorkerEnv) :
    (env.helperPath = none → env.frozen = true →
      (workerRun command env).success = false ∧
      (workerRun command env).return_code = -2) ∧
    (∀ hp, env.helperPath = some hp → env.elev = ElevOutcome.waitTimeout →
      env.channel = ChannelRead.absent →
      (workerRun command env).success = false ∧
      (workerRun command env).return_code = -1) ∧
    (∀ hp, env.helperPath = some hp →
      env.elev = ElevOutcome.shellExecFail 1223 →
      env.channel = ChannelRead.absent →
      (workerRun command env).success = false ∧
      (workerRun command env).return_code = 1223) ∧
    (∀ hp raw msg, env.helperPath = some hp →
      env.channel = ChannelRead.malformed raw msg →
      (workerRun command env).success = false ∧
      (workerRun command env).return_code = executeElevatedCommand env.elev) := by
  refine ⟨?_, ?_, ?_, ?_⟩
  · intro h1 h2
    simp [workerRun, h1, h2]
  · intro hp h1 h2 h3
    simp [workerRun, h1, h2, h3, executeElevatedCommand]
  · intro hp h1 h2 h3
    simp [workerRun, h1, h2, h3, executeElevatedCommand]
  · intro hp raw msg h1 h2
    simp [workerRun, h1, h2]

/-- Witness for the amended C1 statement: the wait-timeout case at a
concrete environment yields `success = false` with sentinel `-1`. -/
theorem pipeline_failure_codes_witness :
    (workerRun "list" waitTimeoutEnv).success = false ∧
    (workerRun "list" waitTimeoutEnv).return_code = -1 :=
  (pipeline_failure_codes "list" waitTimeoutEnv).2.1 "SerialPortManager.exe"
    rfl rfl rfl

/-- C6 counterexample: the launcher's wait timeout and the helper's
internal execution timeout both report return code `-1` — the launcher's
wait-timeout sentinel is *not* distinct from the helper's. -/
theorem wait_timeout_same_sentinel_cex :
    (workerRun "list" waitTimeoutEnv).return_code = -1 ∧
    (executeSetupcCommand "setupc.exe" "list" 30 helperTimeoutEnv).return_code
      = -1 ∧
    (workerRun "list" waitTimeoutEnv).return_code =
      (executeSetupcCommand "setupc.exe" "list" 30 helperTimeoutEnv).return_code := by
  decide

/-- C6 (amended): when the launcher's wait on the elevated helper exceeds
`timeout` plus the fixed 30-second grace period, the failure result
carries return code `-1` — the *same* sentinel the helper uses for the
child tool's internal timeout; the two failures differ only in their
error text. -/
theorem wait_timeout_sentinel_amended (command setupcPath cmd : String)
    (t : Int) (wenv : WorkerEnv) (henv : HelperEnv) :
    (∀ hp, wenv.helperPath = some hp → wenv.elev = ElevOutcome.waitTimeout →
      wenv.channel = ChannelRead.absent →
      (workerRun command wenv).return_code = -1 ∧
      (workerRun command wenv).error =
        "Helper process failed with exit code -1") ∧
    (henv.pathExists = true → henv.execution = ExecOutcome.timedOut →
      ∀ ts, henv.tokenization = some ts →
        (executeSetupcCommand setupcPath cmd t henv).return_code = -1 ∧
        (executeSetupcCommand setupcPath cmd t henv).error =
          "Command timed out after " ++ toString t ++ " seconds") := by
  constructor
  · intro hp h1 h2 h3
    simp [workerRun, h1, h2, h3, executeElevatedCommand]
    decide
  · intro h1 h2 ts h3
    simp [executeSetupcCommand, h1, h2, h3]

/-- Witness for the amended C6 statement at concrete environments. -/
theorem wait_timeout_sentinel_amended_witness :
    (workerRun "list" waitTimeoutEnv).return_code = -1 ∧
    (executeSetupcCommand "setupc.exe" "list" 30 helperTimeoutEnv).return_code
      = -1 :=
  ⟨((wait_timeout_sentinel_amended "list" "setupc.exe" "list" 30
      waitTimeoutEnv helperTimeoutEnv).1 "SerialPortManager.exe"
      rfl rfl rfl).1,
    ((wait_timeout_sentinel_amended "list" "setupc.exe" "list" 30
      waitTimeoutEnv helperTimeoutEnv).2 rfl rfl ["setupc.exe", "list"]
      rfl).1⟩

/-! ## Helper argument-validation theorems -/

/-- C7: whenever the effective integer timeout lies outside `[1, 300]`,
the helper emits a structured result with `success = false` and
`return_code = -11`, exits with status 1, and never reaches tool
execution. -/
theorem helper_invalid_timeout_rejected (a0 s c : String)
    (rest : List String)
    (h : (parseArgs rest 30 none).1 < 1 ∨ (parseArgs rest 30 none).1 > 300) :
    helperMain (a0 :: s :: c :: rest) =
      HelperAction.invalidTimeout
        { success := false, output := "",
          error := "Invalid timeout value: " ++
            toString (parseArgs rest 30 none).1 ++ " (must be 1-300 seconds)",
          return_code := -11, command := "" } 1 ∧
    ∀ p cc t o,
      helperMain (a0 :: s :: c :: rest) ≠ HelperAction.execute p cc t o := by
  have hcond : (parseArgs rest 30 none).1 ≤ 0 ∨
      (parseArgs rest 30 none).1 > 300 := by omega
  have heq : helperMain (a0 :: s :: c :: rest) =
      HelperAction.invalidTimeout
        { success := false, output := "",
          error := "Invalid timeout value: " ++
            toString (parseArgs rest 30 none).1 ++ " (must be 1-300 seconds)",
          return_code := -11, command := "" } 1 := by
    unfold helperMain
    dsimp only
    rw [if_pos hcond]
  refine ⟨heq, ?_⟩
  intro p cc t o hcontra
  rw [heq] at hcontra
  exact HelperAction.noConfusion hcontra

/-- Witness for C7: timeout argument `500` is rejected with `-11`. -/
theorem helper_invalid_timeout_rejected_witness :
    helperMain ["port_manager_helper.py", "setupc.exe", "list", "500"] =
      HelperAction.invalidTimeout
        { success := false, output := "",
          error := "Invalid timeout value: 500 (must be 1-300 seconds)",
          return_code := -11, command := "" } 1 :=
  (helper_invalid_timeout_rejected "port_manager_helper.py" "setupc.exe"
    "list" ["500"] (by decide)).1

theorem parseArgs_default_of_no_int :
    ∀ (rest : List String) (t : Int) (o : Option String),
      (∀ a ∈ rest, pyInt a = none) → (parseArgs rest t o).1 = t
  | [], _, _, _ => rfl
  | [a], t, o, h => by
    simp [parseArgs, h a (by simp)]
  | a :: b :: rest, t, o, h => by
    unfold parseArgs
    by_cases ha : a = "--output-file"
    · rw [if_pos ha]
      exact parseArgs_default_of_no_int rest t (some b)
        (fun x hx => h x (by simp [hx]))
    · rw [if_neg ha, h a (by simp)]
      exact parseArgs_default_of_no_int (b :: rest) t o
        (fun x hx => h x (by simp at hx ⊢; tauto))

theorem parseArgs_timeout_source :
    ∀ (rest : List String) (t : Int) (o : Option String),
      (parseArgs rest t o).1 = t ∨
        ∃ a ∈ rest, pyInt a = some (parseArgs rest t o).1
  | [], _, _ => Or.inl rfl
  | [a], t, o => by
    unfold parseArgs
    cases hp : pyInt a with
    | none => exact Or.inl rfl
    | some n => exact Or.inr ⟨a, by simp, by simp [hp]⟩
  | a :: b :: rest, t, o => by
    unfold parseArgs
    by_cases ha : a = "--output-file"
    · rw [if_pos ha]
      rcases parseArgs_timeout_source rest t (some b) with h | ⟨x, hx, hv⟩
      · exact Or.inl h
      · exact Or.inr ⟨x, by simp [hx], hv⟩
    · rw [if_neg ha]
      cases hp : pyInt a with
      | none =>
        rcases parseArgs_timeout_source (b :: rest) t o with h | ⟨x, hx, hv⟩
        · exact Or.inl h
        · exact Or.inr ⟨x, by simp at hx ⊢; tauto, hv⟩
      | some n =>
        rcases parseArgs_timeout_source (b :: rest) n o with h | ⟨x, hx, hv⟩
        · exact Or.inr ⟨a, by simp, by rw [hp, h]⟩
        · exact Or.inr ⟨x, by simp at hx ⊢; tauto, hv⟩

/-- C10: a positional timeout token that is not a decimal integer (such as
`"abc"` or `"2.5"`) is silently ignored and the helper proceeds with the
default 30-second timeout; the `-11` invalid-timeout failure only ever
arises from a token that does parse as an integer. -/
theorem helper_noninteger_timeout_ignored :
    (∀ (a0 s c : String) (rest : List String),
      (∀ a ∈ rest, pyInt a = none) →
      helperMain (a0 :: s :: c :: rest) =
        HelperAction.execute s c 30 (parseArgs rest 30 none).2) ∧
    (∀ a0 s c : String,
      helperMain [a0, s, c, "abc"] = HelperAction.execute s c 30 none) ∧
    (∀ a0 s c : String,
      helperMain [a0, s, c, "2.5"] = HelperAction.execute s c 30 none) ∧
    (∀ (a0 s c : String) (rest : List String) (r : CommandResult) (e : Nat),
      helperMain (a0 :: s :: c :: rest) = HelperAction.invalidTimeout r e →
      ∃ a ∈ rest, ∃ v, pyInt a = some v) := by
  have main30 : ∀ (a0 s c : String) (rest : List String),
      (parseArgs rest 30 none).1 = 30 →
      helperMain (a0 :: s :: c :: rest) =
        HelperAction.execute s c 30 (parseArgs rest 30 none).2 := by
    intro a0 s c rest h30
    unfold helperMain
    dsimp only
    rw [if_neg (by omega)]
    rw [h30]
  refine ⟨?_, ?_, ?_, ?_⟩
  · intro a0 s c rest hnone
    exact main30 a0 s c rest (parseArgs_default_of_no_int rest 30 none hnone)
  · intro a0 s c
    have h := main30 a0 s c ["abc"]
      (parseArgs_default_of_no_int ["abc"] 30 none (by decide))
    rw [h]
    rfl
  · intro a0 s c
    have h := main30 a0 s c ["2.5"]
      (parseArgs_default_of_no_int ["2.5"] 30 none (by decide))
    rw [h]
    rfl
  · intro a0 s c rest r e hEq
    rcases parseArgs_timeout_source rest 30 none with h30 | ⟨a, ha, hv⟩
    · rw [main30 a0 s c rest h30] at hEq
      exact HelperAction.noConfusion hEq
    · exact ⟨a, ha, _, hv⟩

/-- Witness for C10: a single all-non-integer extra argument leaves the
default timeout of 30 in place. -/
theorem helper_noninteger_timeout_ignored_witness :
    helperMain ["port_manager_helper.py", "setupc.exe", "list", "abc"] =
      HelperAction.execute "setupc.exe" "list" 30 none :=
  helper_noninteger_timeout_ignored.2.1 "port_manager_helper.py"
    "setupc.exe" "list"

/-! ## Orchestrator theorems -/

/-- A concrete dialog state with an operation in flight. -/
def busyState : DialogState :=
  { operationInProgress := true, closing := false, portPairs := [],
    statusText := "Loading...", counterText := "", buttonsEnabled := false,
    createEnabled := false, createTooltip := "", setupcExists := true }

/-- A concrete dialog state that is closing while an operation is still
in flight. -/
def closingState : DialogState :=
  { operationInProgress := true, closing := true, portPairs := [],
    statusText := "Loading...", counterText := "", buttonsEnabled := false,
    createEnabled := false, createTooltip := "", setupcExists := true }

/-- C8: while the operation-in-progress flag or the closing flag is set, a
new request is a no-op — no worker starts and the state is untouched; and
a worker only ever starts from a state with both flags clear, setting the
in-progress flag, so at most one elevated operation is in flight. -/
theorem execute_command_guard (s : DialogState) (command : String)
    (timeout : Int) :
    (s.operationInProgress = true ∨ s.closing = true →
      executeCommand s command timeout = (s, none)) ∧
    (∀ s' w, executeCommand s command timeout = (s', some w) →
      s.operationInProgress = false ∧ s.closing = false ∧
      s'.operationInProgress = true ∧
      w = { setupcPath := SETUPC_PATH, command := command,
            timeout := timeout }) := by
  constructor
  · rintro (h | h) <;> simp [executeCommand, h]
  · intro s' w hEq
    unfold executeCommand at hEq
    by_cases h1 : s.operationInProgress
    · simp [h1] at hEq
    · by_cases h2 : s.closing
      · simp [h1, h2] at hEq
      · simp only [h1, h2, if_false, Prod.mk.injEq, Option.some.injEq,
          Bool.false_eq_true] at hEq
        obtain ⟨hs', hw⟩ := hEq
        refine ⟨by simpa using h1, by simpa using h2, ?_, hw.symm⟩
        rw [← hs']

/-- Witness for C8 at a concrete busy state. -/
theorem execute_command_guard_witness :
    executeCommand busyState "list" 30 = (busyState, none) :=
  (execute_command_guard busyState "list" 30).1 (Or.inl rfl)

/-- C9: every completion handler (list, create, remove) that fires while
the closing flag is set returns without mutating any orchestrator state
and without issuing any follow-up operation. -/
theorem completion_handlers_discard_when_closing (s : DialogState)
    (result : CommandResult) (comA comB : String) (h : s.closing = true) :
    onListResult s result = (s, []) ∧
    onPairCreated s result comA comB = (s, []) ∧
    onRemoveResult s result = (s, []) := by
  refine ⟨?_, ?_, ?_⟩ <;>
    simp [onListResult, onPairCreated, onRemoveResult, h]

/-- Witness for C9 at a concrete closing state. -/
theorem completion_handlers_discard_when_closing_witness :
    onListResult closingState { success := true } = (closingState, []) ∧
    onPairCreated closingState { success := true } "COM150" "COM151" =
      (closingState, []) ∧
    onRemoveResult closingState { success := true } = (closingState, []) :=
  completion_handlers_discard_when_closing closingState { success := true }
    "COM150" "COM151" rfl

end SerialTerminal

